import Mathlib

/-!
Verification of the Amon master (sdc-amon repository).

This file embeds, as executable Lean definitions, the parts of the Amon
master that the checked properties concern:

* the maintenance-window model and API handlers
  (`src/master/lib/maintenances.js`),
* the `/events` endpoint (`src/master/lib/events.js`),
* the probe model: validation and write/delete authorization
  (the probes module, in `src/master/test/runtests`),
* the user resolver and the 2011-era event router of the app module
  (`src/unnamed/part_001`).

Machine integers of the source (JavaScript numbers used as millisecond
timestamps and counters) are modelled as `Int`/`Nat`; fallible paths are
modelled with `Option`/`Except` or explicit result inductives.  Asynchronous
callback code is modelled by explicit state passing: each handler is a pure
function from the relevant store state to a response (and a new state).
-/

namespace Amon

/-! ### String shape tests

`UUID_RE = /^[0-9a-f]{8}-[0-9a-f]{4}-[0-9a-f]{4}-[0-9a-f]{4}-[0-9a-f]{12}$/`
appears in the app module, the maintenances module and the probes module.
`VALID_LOGIN_CHARS = /^[a-zA-Z][a-zA-Z0-9_\x2e@]+$/` appears in the app
module (`src/unnamed/part_001`).  Both are embedded as decidable predicates
on the character list of a string. -/

/-- A lowercase hexadecimal digit, the character class `[0-9a-f]`. -/
def isHexDigit (c : Char) : Bool :=
  ('0' ≤ c && c ≤ '9') || ('a' ≤ c && c ≤ 'f')

/-- Split a character list on `-` (every occurrence), keeping empty groups,
as the anchored group structure of `UUID_RE` requires. -/
def splitDash : List Char → List (List Char)
  | [] => [[]]
  | c :: cs =>
    if c = '-' then [] :: splitDash cs
    else
      match splitDash cs with
      | [] => [[c]]
      | g :: gs => (c :: g) :: gs

/-- The test `UUID_RE.test(s)`: five dash-separated lowercase-hex groups of
lengths 8, 4, 4, 4 and 12. -/
def isUuid (s : String) : Bool :=
  match splitDash s.data with
  | [a, b, c, d, e] =>
    a.length == 8 && b.length == 4 && c.length == 4 && d.length == 4 &&
    e.length == 12 &&
    (a.all isHexDigit && b.all isHexDigit && c.all isHexDigit &&
     d.all isHexDigit && e.all isHexDigit)
  | _ => false

/-- The character class `[a-zA-Z]`. -/
def isAsciiLetter (c : Char) : Bool :=
  ('a' ≤ c && c ≤ 'z') || ('A' ≤ c && c ≤ 'Z')

/-- The character class `[a-zA-Z0-9_\x2e@]` of `VALID_LOGIN_CHARS`. -/
def isLoginTailChar (c : Char) : Bool :=
  isAsciiLetter c || ('0' ≤ c && c ≤ '9') || c = '_' || c = '.' || c = '@'

/-- The test `VALID_LOGIN_CHARS.test(s)`: a letter followed by one or more
characters from `[a-zA-Z0-9_\x2e@]` (so total length at least 2). -/
def validLoginTest (s : String) : Bool :=
  match s.data with
  | [] => false
  | c :: rest => isAsciiLetter c && !rest.isEmpty && rest.all isLoginTailChar

/-! ### Maintenance window model (`src/master/lib/maintenances.js`)

A `Maintenance` is the object built by the `Maintenance(data, log)`
constructor: `start`/`end` are millisecond timestamps (`Number(data.start)`),
`all` is a boolean, and `probes`/`probeGroups`/`machines` are the optional
parsed UUID arrays (`data.probes && JSON.parse(data.probes)`).  An absent
array field is `none`; a present (possibly empty) array is `some`. -/

structure Maintenance where
  id : Nat
  user : String
  start : Int
  end_ : Int
  notes : Option String
  all : Bool
  probes : Option (List String)
  probeGroups : Option (List String)
  machines : Option (List String)
deriving DecidableEq, Repr

/-- The `numScopes` count of the `Maintenance` constructor: how many of
`data.all`, `data.probes`, `data.probeGroups`, `data.machines` are truthy. -/
def Maintenance.numScopes (m : Maintenance) : Nat :=
  (if m.all then 1 else 0) + (if m.probes.isSome then 1 else 0) +
  (if m.probeGroups.isSome then 1 else 0) +
  (if m.machines.isSome then 1 else 0)

/-- The constructor's scope rule: exactly one of `all`, `probes`,
`probeGroups`, `machines` is set.  Every window produced by the
`Maintenance` constructor (hence everything `listMaintenances` returns)
satisfies this. -/
def Maintenance.scopeValid (m : Maintenance) : Bool :=
  m.numScopes == 1

/-- The event fields `isEventInMaintenance` reads: `event.user`,
`event.time`, `event.probeUuid` and `event.machine` (the latter two are
optional: "not all events have a probe/machine"). -/
structure MEvent where
  user : String
  time : Int
  probeUuid : Option String
  machine : Option String
deriving DecidableEq, Repr

/-- `list.indexOf(x) !== -1` on an optional list against an optional
element; false when either side is absent, as the `m.probeGroups &&
eprobeGroup`-style guards make it. -/
def memOpt (l : Option (List String)) (x : Option String) : Bool :=
  match l, x with
  | some l, some x => l.contains x
  | _, _ => false

/-- One iteration of the `isEventInMaintenance` loop body: `true` iff the
code would return this window `m` for the event.  The `if`/`else if` chain
is embedded literally: an inactive window falls through; an active window
is returned iff its first applicable scope branch matches. -/
def maintLoopHit (m : Maintenance) (etime : Int) (eprobe : Option String)
    (eprobeGroup : Option String) (emachine : Option String) : Bool :=
  if etime ≤ m.start || m.end_ ≤ etime then false
  else if m.all then true
  else if m.probeGroups.isSome && eprobeGroup.isSome then
    memOpt m.probeGroups eprobeGroup
  else if m.probes.isSome && eprobe.isSome then
    memOpt m.probes eprobe
  else if m.machines.isSome && emachine.isSome then
    memOpt m.machines emachine
  else false

/-- `isEventInMaintenance(options, callback)` in the success case: the
owner's windows (as `listMaintenances` returns them) are scanned linearly
and the first hit is returned, else `null`.  The `options.probeGroup &&
options.probeGroup.uuid` argument is passed separately as `eprobeGroup`. -/
def isEventInMaintenance (maintenances : List Maintenance) (event : MEvent)
    (eprobeGroup : Option String) : Option Maintenance :=
  match maintenances with
  | [] => none
  | m :: rest =>
    if maintLoopHit m event.time event.probeUuid eprobeGroup event.machine then
      some m
    else isEventInMaintenance rest event eprobeGroup

/-- The specification's matching predicate for one window:
`start < event.time < end` and
(`all` or `probeGroups ∋ group` or `probes ∋ probeUuid` or
`machines ∋ machine`). -/
def maintMatches (m : Maintenance) (event : MEvent)
    (eprobeGroup : Option String) : Bool :=
  (m.start < event.time && event.time < m.end_) &&
  (m.all || memOpt m.probeGroups eprobeGroup ||
   memOpt m.probes event.probeUuid || memOpt m.machines event.machine)

/-! ### Maintenance store and API handlers

The redis layout (db 1) of `src/master/lib/maintenances.js`:
`maintenanceIds` is a hash `user -> counter` (`HINCRBY maintenanceIds user
1` allocates the next id; an absent field reads as 0), `maintenances:user`
is the per-user id set, `maintenancesByEnd` a sorted set of keys scored by
`end`, and `maintenance:user:id` the window hash.  The store is modelled as
one record; handlers are functions of it. -/

structure MaintDb where
  maintenanceIds : String → Nat
  maintSet : String → List Nat
  maintByEnd : List (String × Nat × Int)
  maintHash : String → Nat → Option Maintenance

/-- The empty store: no counters (`HGET` of an absent field, `Number(null)
|| 0`, reads 0), no sets, no hashes. -/
def MaintDb.empty : MaintDb :=
  { maintenanceIds := fun _ => 0
    maintSet := fun _ => []
    maintByEnd := []
    maintHash := fun _ _ => none }

/-- The `Maintenance(data, log)` constructor on the data `createMaintenance`
assembles: it checks `id` and the resolved `start`/`end` are positive
integers, `user` is a UUID, and exactly one scope field is truthy; on any
violation it throws `TypeError` (here: `none`). -/
def maintenanceOfData (id : Nat) (user : String) (start end_ : Int)
    (notes : Option String) (all : Bool)
    (probes probeGroups machines : Option (List String)) : Option Maintenance :=
  if id == 0 then none
  else if !(isUuid user) then none
  else if !(0 < start : Bool) then none
  else if !(0 < end_ : Bool) then none
  else
    let m : Maintenance :=
      { id := id, user := user, start := start, end_ := end_, notes := notes
        all := all, probes := probes, probeGroups := probeGroups
        machines := machines }
    if m.scopeValid then some m else none

/-- The options object of `createMaintenance`.  `start` and `end` are
modelled after resolution by `dateFromStart`/`dateFromEnd` (the claims under
check concern numeric inputs; a value resolving to a negative timestamp,
e.g. a pre-1970 date string, is a negative `Int` here).  `none` is an
absent field, and `some 0` is the falsy timestamp 0, which the `!options.start`
requiredness check also rejects. -/
structure CreateOptions where
  userUuid : String
  start : Option Int
  end_ : Option Int
  notes : Option String
  all : Bool
  probes : Option (List String)
  probeGroups : Option (List String)
  machines : Option (List String)

/-- JavaScript truthiness of the modelled `start`/`end` option. -/
def timeTruthy : Option Int → Bool
  | none => false
  | some v => !(v == 0)

/-- The `numScopes` count over the request options. -/
def CreateOptions.numScopes (o : CreateOptions) : Nat :=
  (if o.all then 1 else 0) + (if o.probes.isSome then 1 else 0) +
  (if o.probeGroups.isSome then 1 else 0) +
  (if o.machines.isSome then 1 else 0)

/-- The notes length check of `createMaintenance`:
`options.notes && options.notes.length > MAX_NOTES_LENGTH` with
`MAX_NOTES_LENGTH = 255` (an absent — or empty, hence falsy — notes field
passes). -/
def notesTooLong : Option String → Bool
  | none => false
  | some s => decide (255 < s.length)

inductive CreateResult where
  | typeErr (msg : String)
  | created (m : Maintenance)
deriving DecidableEq, Repr

/-- Update a `String → Nat` hash at one key. -/
def bumpAt (f : String → Nat) (k : String) (v : Nat) : String → Nat :=
  fun x => if x = k then v else f x

/-- Update the window hash at one `(user, id)` key. -/
def hashPut (f : String → Nat → Option Maintenance) (u : String) (i : Nat)
    (v : Option Maintenance) : String → Nat → Option Maintenance :=
  fun x j => if x = u ∧ j = i then v else f x j

/-- `createMaintenance(options, callback)`: the option checks run in source
order (`userUuid` UUID, `start`/`end` required, `notes` at most
`MAX_NOTES_LENGTH = 255` chars, exactly one scope); only then is
`HINCRBY maintenanceIds user 1` issued.  The allocated id is kept even when
the subsequent `new Maintenance(data)` throws: the error is returned with
the counter already incremented.  On success the multi-op adds the id to
the user's set, the key to `maintenancesByEnd` (score `end`) and writes the
hash. -/
def createMaintenance (db : MaintDb) (o : CreateOptions) :
    CreateResult × MaintDb :=
  if !(isUuid o.userUuid) then
    (.typeErr "\x22options.userUuid\x22 (UUID) is required", db)
  else if !(timeTruthy o.start) then
    (.typeErr "\x22options.start\x22 is required", db)
  else if !(timeTruthy o.end_) then
    (.typeErr "\x22options.end\x22 is required", db)
  else if notesTooLong o.notes then
    (.typeErr "\x22options.notes\x22 max length is 255", db)
  else if !(o.numScopes == 1) then
    (.typeErr "exactly one scope must be specified", db)
  else
    let user := o.userUuid
    let id := db.maintenanceIds user + 1
    let db1 : MaintDb := { db with maintenanceIds := bumpAt db.maintenanceIds user id }
    match maintenanceOfData id user (o.start.getD 0) (o.end_.getD 0)
        o.notes o.all o.probes o.probeGroups o.machines with
    | none => (.typeErr "invalid maintenance data", db1)
    | some m =>
      (.created m,
       { db1 with
         maintSet := fun u => if u = user then id :: db1.maintSet u else db1.maintSet u
         maintByEnd := (user, id, m.end_) :: db1.maintByEnd
         maintHash := hashPut db1.maintHash user id (some m) })

/-- `deleteMaintenance(app, maint, callback)`: one multi-op removing the id
from the user's set, the key from `maintenancesByEnd`, and the hash. -/
def deleteMaintenance (db : MaintDb) (user : String) (id : Nat) : MaintDb :=
  { maintenanceIds := db.maintenanceIds
    maintSet := fun u => if u = user then (db.maintSet u).filter (· ≠ id) else db.maintSet u
    maintByEnd := db.maintByEnd.filter (fun e => ¬(e.1 = user ∧ e.2.1 = id))
    maintHash := hashPut db.maintHash user id none }

inductive MaintGetResponse where
  | invalidArg
  | found (m : Maintenance)
  | gone
  | notFound
deriving DecidableEq, Repr

/-- `reqGetMaintenanceWindow(req, res, next)`, the handler in front of both
`GET` and `DELETE` of `/pub/:user/maintenances/:maintenance`.  The id
parameter (already converted by `Number(...)`; the claims concern integer
ids) must be a positive integer, else `InvalidArgumentError`.  When the
window hash is absent the handler disambiguates: `GoneError` iff
`id <= Number(HGET maintenanceIds user) || 0`, else
`ResourceNotFoundError`. -/
def reqGetMaintenanceWindow (db : MaintDb) (user : String) (id : Int) :
    MaintGetResponse :=
  if !(0 < id : Bool) then .invalidArg
  else
    match db.maintHash user id.toNat with
    | some m => .found m
    | none =>
      if id ≤ (db.maintenanceIds user : Int) then .gone else .notFound

/-! ### The `/events` endpoint (`src/master/lib/events.js`)

`addEvents(req, res, next)` accepts a single event object or an array.  Its
`asyncForEach` runs `validateAndProcess` on every entry; the per-event
callback always completes with no argument (`cb()`), pushing any processing
error onto `errs`, so no failure aborts the siblings.  The reply is
`202 Accepted` when `errs` is empty, the single error when `errs.length ===
1`, and `new errors.MultiError(errs)` otherwise.  Events and errors are
abstract here (`ε` errors over `α` events); `processEvent` is the app
callback, returning `some err` on failure. -/

/-- The request body: `Array.isArray(req.body)` distinguishes a single
event object from an array of events. -/
inductive EventsBody (α : Type) where
  | one (e : α)
  | many (es : List α)

/-- The `events` list the handler builds from the body. -/
def eventsOf {α : Type} : EventsBody α → List α
  | .one e => [e]
  | .many es => es

inductive AddEventsReply (ε : Type) where
  | accepted
  | failed (err : ε)
  | multiFailed (errs : List ε)
deriving DecidableEq, Repr

/-- The collected `errs` array: processing errors in event order. -/
def collectedErrs {α ε : Type} (processEvent : α → Option ε)
    (body : EventsBody α) : List ε :=
  (eventsOf body).filterMap processEvent

/-- `addEvents`: process every event, collect the failures, and reply. -/
def addEvents {α ε : Type} (processEvent : α → Option ε)
    (body : EventsBody α) : AddEventsReply ε :=
  match collectedErrs processEvent body with
  | [] => .accepted
  | [err] => .failed err
  | errs => .multiFailed errs

/-! ### The user resolver (`App.prototype.userFromId`, `src/unnamed/part_001`)

After the cache check the resolver classifies the id:

    var uuid = null, login = null;
    if (UUID_REGEX.test(userId)) {
      uuid = userId;
    } else if (VALID_LOGIN_CHARS.test(login)) {
      login = userId;
    } else {
      return callback(new restify.InvalidArgumentError(...));
    }

Note the second test reads the variable `login`, which is still `null`
there; JavaScript's `RegExp.test` coerces `null` to the string `"null"`.
The embedding keeps that literally. -/

inductive UserIdRoute where
  | byUuid (uuid : String)
  | byLogin (login : String)
  | rejected
deriving DecidableEq, Repr

/-- The classification `userFromId` performs before the directory search:
`byUuid`/`byLogin` proceed to an LDAP search keyed by that uuid/login,
`rejected` returns `InvalidArgumentError` with no search. -/
def userFromIdRoute (userId : String) : UserIdRoute :=
  if isUuid userId then .byUuid userId
  else if validLoginTest "null" then .byLogin userId
  else .rejected

/-- The classification the specification describes, for comparison: the
login test applied to the supplied user id. -/
def userFromIdRouteSpec (userId : String) : UserIdRoute :=
  if isUuid userId then .byUuid userId
  else if validLoginTest userId then .byLogin userId
  else .rejected

/-! ### The probe model (probes module, in `src/master/test/runtests`)

Only the pieces the checked properties use are embedded: the two name
length checks, the `skipauthz` computation of `Probe.create`, the
`authorizeWrite` decision tree and the `authorizeDelete` stub. -/

/-- The name check of `Probe.create`:
`if (data.name) assert.ok(data.name.length < 512, 'probe name is too long
(max 512 characters)...')`. -/
def probeCreateNameOk (name : Option String) : Bool :=
  match name with
  | none => true
  | some s => decide (s.length < 512)

/-- The name check of `Probe.validate` (run on every construction, hence on
PUT): `if (raw.name && raw.name.length > 512) throw InvalidArgumentError
('probe name is too long (max 512 characters)...')`. -/
def probeValidateNameOk (name : Option String) : Bool :=
  match name with
  | none => true
  | some s => !decide (512 < s.length)

/-- `Probe.create`'s `skipauthz` handling: the request is only honoured for
the admin user: `probe._skipauthz = (data.skipauthz ? data.user ===
app.config.adminUuid : false)`. -/
def skipauthzEffective (requested : Bool) (user adminUuid : String) : Bool :=
  if requested then user == adminUuid else false

/-- The probe fields `authorizeWrite` reads.  `machine` is optional
(`runInVmHost` probes name a VM in `machine` and its physical host in
`agent`); `typeRunInVmHost` is `plugins[self.type].runInVmHost`;
`skipauthzEff` is the `_skipauthz` flag computed by `Probe.create`. -/
structure ProbeAuthz where
  user : String
  agent : String
  machine : Option String
  typeRunInVmHost : Bool
  skipauthzEff : Bool
deriving DecidableEq, Repr

/-- The external lookups of `authorizeWrite`, modelled as total oracles for
the executions in which every lookup answers cleanly (the lookup-failure
branches return `InternalError` and are outside the checked property):
`serverExists u` is the server-inventory hit, `vmOwned u owner` is
`vmapiClient.getVm({uuid: u, owner_uuid: owner})` finding a VM, `vmExists u`
is the unscoped `getVm({uuid: u})` finding a VM, and `isOperator u` the
directory's operator-group membership. -/
structure AuthzEnv where
  serverExists : String → Bool
  vmOwned : String → String → Bool
  vmExists : String → Bool
  isOperator : String → Bool

inductive AuthzResult where
  | authorized
  | notOperatorErr
  | noSuchMachineErr
deriving DecidableEq, Repr

/-- `getVm({uuid: self.machine})` of the rule-3 helper `isExistingVmOrErr`
on the optional machine field: an absent machine finds nothing. -/
def vmExistsOpt (env : AuthzEnv) : Option String → Bool
  | none => false
  | some m => env.vmExists m

/-- `Probe.prototype.authorizeWrite(app, callback)`: the nested-callback
rule tree, linearized.  `var machineUuid = this.agent` — rules 1 and 2 are
keyed by the *agent* UUID; rule 3's helpers test `plugins[type].runInVmHost`,
then `getVm({uuid: self.machine})`, then operator membership, in series.

0. `_skipauthz` set: authorized.
1. `serverExists(agent)`: authorized iff operator, else `InvalidArgument`
   ("Must be operator ...").
2. `getVm({uuid: agent, owner_uuid: user})` finds a VM: authorized.
3. type is `runInVmHost` and `getVm({uuid: machine})` finds a VM and the
   user is an operator: authorized.
4. otherwise `InvalidArgument` ("machine ... does not exist or is not
   owned by user ..."). -/
def authorizeWrite (env : AuthzEnv) (p : ProbeAuthz) : AuthzResult :=
  if p.skipauthzEff then .authorized
  else if env.serverExists p.agent then
    if env.isOperator p.user then .authorized else .notOperatorErr
  else if env.vmOwned p.agent p.user then .authorized
  else if p.typeRunInVmHost && vmExistsOpt env p.machine
      && env.isOperator p.user then .authorized
  else .noSuchMachineErr

/-- The decision tree as the claim words it, for comparison: its rule (2)
reads "else if the machine is a VM owned by the actor", i.e. the owned-VM
lookup is keyed by the `machine` field. -/
def authorizeWriteClaim (env : AuthzEnv) (p : ProbeAuthz) : AuthzResult :=
  if p.skipauthzEff then .authorized
  else if env.serverExists p.agent then
    if env.isOperator p.user then .authorized else .notOperatorErr
  else if (match p.machine with
           | some m => env.vmOwned m p.user
           | none => false) then .authorized
  else if p.typeRunInVmHost && vmExistsOpt env p.machine
      && env.isOperator p.user then .authorized
  else .noSuchMachineErr

/-- `Probe.prototype.authorizeDelete(app, callback)`, embedded as found:
`throw new Error('XXX authorizeDelete NYI')` — it never authorizes,
whoever the actor is. -/
def authorizeDelete (_actor : String) (_actorIsOperator : Bool)
    (_p : ProbeAuthz) : Except String Unit :=
  .error "XXX authorizeDelete NYI"

/-! ### The event router (`App.prototype.processEvent`, `src/unnamed/part_001`)

The router in the snapshot's app module: it loads the monitor named by
`event.probe.user`/`event.probe.monitor` and notifies each contact URN of
that monitor.  `Contact.get` failures are logged and skipped; a contact
with no address triggers `alarmConfig` (a config alarm, not a plugin
notification); otherwise `notifyContact` looks up the plugin for the
contact's notification type and calls `plugin.notify(probeName, address,
message)`.  There is no maintenance-window step anywhere in this control
flow. -/

/-- The `event.probe` sub-object `processEvent` reads. -/
structure EvProbe where
  user : String
  monitor : String
  name : String
deriving DecidableEq, Repr

/-- A resolved contact as `Contact.get` yields it: the address attribute
value (possibly absent) and the notification type chosen for the medium. -/
structure EvContact where
  address : Option String
  notificationType : String
deriving DecidableEq, Repr

/-- A monitor record: `processEvent` only reads its contact URN list. -/
structure EvMonitor where
  contacts : List String
deriving DecidableEq, Repr

/-- The collaborators of `processEvent`: `Monitor.get` (a failure or
missing monitor fails the event before any notification), `Contact.get`
(`none` models the resolve-failure path, which is logged and skipped), and
the plugin registry membership test of `notifyContact`. -/
structure RouterEnv where
  monitorGet : String → String → Option EvMonitor
  contactGet : String → String → Option EvContact
  hasPlugin : String → Bool

/-- The plugin `notify` calls `processEvent` performs for one event:
one `(notificationType, address)` pair per contact of the monitor that
resolves to an address whose notification type has a registered plugin.
No step of the function consults maintenance windows. -/
def processEventNotifies (env : RouterEnv) (probe : EvProbe) :
    List (String × String) :=
  match env.monitorGet probe.user probe.monitor with
  | none => []
  | some monitor =>
    monitor.contacts.filterMap fun urn =>
      match env.contactGet probe.user urn with
      | none => none
      | some contact =>
        match contact.address with
        | none => none
        | some addr =>
          if env.hasPlugin contact.notificationType then
            some (contact.notificationType, addr)
          else none

/-! ### Concrete inputs used by the individual checks -/

/-- A user UUID (matches `UUID_RE`). -/
def u0 : String := "aaaaaaaa-aaaa-aaaa-aaaa-aaaaaaaaaaaa"

/-- An active `all`-scoped maintenance window for `u0` (the window the
spec's end-to-end scenario creates: `id 1`, `start 1_000_000`,
`end 4_600_000`, `all: true`). -/
def w0 : Maintenance :=
  { id := 1, user := u0, start := 1000000, end_ := 4600000, notes := none
    all := true, probes := none, probeGroups := none, machines := none }

/-- An event of `u0` falling inside `w0` (`time 2_000_000`). -/
def ev0 : MEvent :=
  { user := u0, time := 2000000
    probeUuid := some "bbbbbbbb-bbbb-bbbb-bbbb-bbbbbbbbbbbb"
    machine := some "cccccccc-cccc-cccc-cccc-cccccccccccc" }

/-- The `event.probe` header of the same event, as the part_001 router
reads it. -/
def evProbe0 : EvProbe := { user := u0, monitor := "whistle", name := "whistlelog" }

/-- Collaborators for the part_001 router: the monitor `whistle` of `u0`
has the single contact URN `email`, which resolves to an address handled
by the registered `email` plugin. -/
def routerEnv0 : RouterEnv :=
  { monitorGet := fun u m =>
      if u = u0 ∧ m = "whistle" then some { contacts := ["email"] } else none
    contactGet := fun u urn =>
      if u = u0 ∧ urn = "email" then
        some { address := some "sdc@example.com", notificationType := "email" }
      else none
    hasPlugin := fun t => t == "email" }

/-- Authorization environment for the write-authorization check: no
physical server is known, the only VM lookup that succeeds is for the UUID
`ffffffff-...` (owned by whoever asks), and nobody is an operator. -/
def authzEnv2 : AuthzEnv :=
  { serverExists := fun _ => false
    vmOwned := fun u _ => u == "ffffffff-ffff-ffff-ffff-ffffffffffff"
    vmExists := fun _ => false
    isOperator := fun _ => false }

/-- A probe whose `machine` is the owned VM `ffffffff-...` but whose
`agent` UUID is neither a known server nor a VM, of a non-`runInVmHost`
type. -/
def probe2 : ProbeAuthz :=
  { user := "11111111-1111-1111-1111-111111111111"
    agent := "eeeeeeee-eeee-eeee-eeee-eeeeeeeeeeee"
    machine := some "ffffffff-ffff-ffff-ffff-ffffffffffff"
    typeRunInVmHost := false, skipauthzEff := false }

/-- A probes-scoped window of `u0` covering probe `b...b`. -/
def w3 : Maintenance :=
  { id := 2, user := u0, start := 1000000, end_ := 4600000, notes := none
    all := false
    probes := some ["bbbbbbbb-bbbb-bbbb-bbbb-bbbbbbbbbbbb"]
    probeGroups := none, machines := none }

/-- Another user UUID. -/
def u4 : String := "dddddddd-dddd-dddd-dddd-dddddddddddd"

/-- Create options for the end-to-end scenario: `all: true`, resolved
`start 1_000_000` and `end 4_600_000`. -/
def cOpts4 : CreateOptions :=
  { userUuid := u4, start := some 1000000, end_ := some 4600000, notes := none
    all := true, probes := none, probeGroups := none, machines := none }

/-- The store after creating the scenario window in an empty store
(allocates id 1). -/
def db4 : MaintDb := (createMaintenance MaintDb.empty cOpts4).2

/-- The store after then deleting window `(u4, 1)`. -/
def db4del : MaintDb := deleteMaintenance db4 u4 1

/-- The 512-character probe name. -/
def name512 : String := String.mk (List.replicate 512 'a')

/-- The 513-character probe name. -/
def name513 : String := String.mk (List.replicate 513 'a')

/-- Create options whose `start` resolved to a negative timestamp (a
pre-1970 date string): truthy, so it passes the requiredness check, but
rejected by the `Maintenance` constructor's `isPositiveInteger(start)`. -/
def o9 : CreateOptions :=
  { userUuid := u4, start := some (-5), end_ := some 4600000, notes := none
    all := true, probes := none, probeGroups := none, machines := none }

end Amon

open Amon

/-- For a window with exactly one scope (the invariant the `Maintenance`
constructor enforces on everything `listMaintenances` yields), one
iteration of the `isEventInMaintenance` loop hits exactly when the
specification's matching predicate holds. -/
theorem maintLoopHit_eq_maintMatches (m : Maintenance) (e : MEvent)
    (g : Option String) (h : m.scopeValid = true) :
    maintLoopHit m e.time e.probeUuid g e.machine = maintMatches m e g := by
  rcases m with ⟨id, user, s, en, notes, all, ps, gs, ms⟩
  rcases e with ⟨eu, et, ep, em⟩
  simp only [Maintenance.scopeValid, Maintenance.numScopes] at h
  cases all <;> rcases ps with _ | ps <;> rcases gs with _ | gs <;>
    rcases ms with _ | ms <;> simp_all <;>
    rcases g with _ | g <;> rcases ep with _ | ep <;> rcases em with _ | em <;>
    simp [maintLoopHit, maintMatches, memOpt] <;>
    by_cases h1 : et ≤ s <;> by_cases h2 : en ≤ et <;> simp_all

/-- C3: `isEventInMaintenance(event, probeGroup?)` returns a window `m` only
if `m` is one of the owner's windows and matches (`start < time < end` and
`all`, or the probe group in `probeGroups`, or `probeUuid` in `probes`, or
`machine` in `machines`); it returns `nil` iff no window of that user
matches.  (Which one of several overlapping matches is returned is not
pinned: the code takes the first.) -/
theorem isEventInMaintenance_characterization (ws : List Maintenance)
    (e : MEvent) (g : Option String)
    (h : ∀ m ∈ ws, m.scopeValid = true) :
    (∀ m, isEventInMaintenance ws e g = some m →
      m ∈ ws ∧ maintMatches m e g = true) ∧
    (isEventInMaintenance ws e g = none ↔
      ∀ m ∈ ws, maintMatches m e g = false) := by
  induction ws with
  | nil => simp [isEventInMaintenance]
  | cons m rest ih =>
    have hm : m.scopeValid = true := h m (List.mem_cons_self m rest)
    have hrest : ∀ m' ∈ rest, m'.scopeValid = true :=
      fun m' hm' => h m' (List.mem_cons_of_mem m hm')
    obtain ⟨ih1, ih2⟩ := ih hrest
    rw [isEventInMaintenance]
    by_cases hhit : maintLoopHit m e.time e.probeUuid g e.machine = true
    · rw [if_pos hhit]
      constructor
      · intro m' hm'
        obtain rfl : m = m' := by injection hm'
        refine ⟨List.mem_cons_self m rest, ?_⟩
        rw [← maintLoopHit_eq_maintMatches m e g hm]
        exact hhit
      · constructor
        · intro hnone; exact absurd hnone (by simp)
        · intro hall
          have := hall m (List.mem_cons_self m rest)
          rw [← maintLoopHit_eq_maintMatches m e g hm] at this
          rw [hhit] at this
          exact absurd this (by simp)
    · rw [if_neg hhit]
      constructor
      · intro m' hm'
        obtain ⟨h1, h2⟩ := ih1 m' hm'
        exact ⟨List.mem_cons_of_mem m h1, h2⟩
      · rw [ih2]
        constructor
        · intro hall m' hm'
          rcases List.mem_cons.mp hm' with rfl | hmem
          · rw [← maintLoopHit_eq_maintMatches m' e g hm]
            exact Bool.eq_false_iff.mpr hhit
          · exact hall m' hmem
        · intro hall m' hm'
          exact hall m' (List.mem_cons_of_mem m hm')

/-- Witness for C3 at a concrete input: both windows of `u0` are
scope-valid, and the characterization applied to the probes-scoped window
`w3` (hit by the event's probe UUID) confirms membership and matching. -/
theorem isEventInMaintenance_characterization_witness :
    (∀ m ∈ [w3], m.scopeValid = true) ∧
    (w3 ∈ [w3] ∧ maintMatches w3 ev0 none = true) :=
  ⟨by decide,
   (isEventInMaintenance_characterization [w3] ev0 none (by decide)).1 w3
     (by decide)⟩

/-- C1 (failing input): the part_001 event router performs its plugin
`notify` calls even though `isEventInMaintenance` finds an active matching
maintenance window for the event's owner — it has no maintenance step at
all, so the event is not suppressed. -/
theorem processEvent_ignores_active_maintenance :
    isEventInMaintenance [w0] ev0 none = some w0 ∧
    w0.scopeValid = true ∧
    processEventNotifies routerEnv0 evProbe0 = [("email", "sdc@example.com")] := by
  refine ⟨by decide, by decide, ?_⟩
  decide

/-- C6 (failing input): `"***"` is neither a UUID nor login-syntactic, yet
`userFromId` sends it to a directory lookup keyed by that string — the
buggy `VALID_LOGIN_CHARS.test(login)` tests the string `"null"` (always
true), so the reject branch is unreachable; the specified classification
would reject it without a lookup. -/
theorem userFromId_routes_invalid_id_to_lookup :
    isUuid "***" = false ∧
    validLoginTest "***" = false ∧
    userFromIdRoute "***" = UserIdRoute.byLogin "***" ∧
    userFromIdRouteSpec "***" = UserIdRoute.rejected ∧
    validLoginTest "null" = true := by
  decide

set_option maxRecDepth 8192 in
/-- C7 (failing input): a 512-character probe name is rejected by
`Probe.create`'s `assert.ok(name.length < 512)` — although that assert's
own message says "max 512 characters" and `Probe.validate` (the PUT-side
check, `length > 512`) accepts 512 and rejects only 513. -/
theorem probe_name_512_create_validate_mismatch :
    probeCreateNameOk (some name512) = false ∧
    probeValidateNameOk (some name512) = true ∧
    probeValidateNameOk (some name513) = false ∧
    name512.length = 512 ∧ name513.length = 513 := by
  refine ⟨?_, ?_, ?_, ?_, ?_⟩ <;> decide

/-- C8 (failing input): `Probe.prototype.authorizeDelete` is the NYI stub —
it throws for every actor, including the probe's owner and operators, so no
probe delete is ever authorized by it. -/
theorem authorizeDelete_never_authorizes (actor : String) (isOp : Bool)
    (p : ProbeAuthz) :
    authorizeDelete actor isOp p = Except.error "XXX authorizeDelete NYI" :=
  rfl

/-- C2 counterexample: `authorizeWrite` keys its owned-VM rule on the
*agent* UUID (`var machineUuid = this.agent`), not on `machine` as the
claim's rule (2) states.  For a probe whose `machine` is a VM owned by the
actor but whose `agent` is neither a known server nor a VM (and a
non-`runInVmHost` type), the claim's tree authorizes while the code denies
with the invalid-argument "machine does not exist or is not owned" error. -/
theorem authorizeWrite_machine_rule_counterexample :
    authorizeWriteClaim authzEnv2 probe2 = AuthzResult.authorized ∧
    authorizeWrite authzEnv2 probe2 = AuthzResult.noSuchMachineErr := by
  decide

/-- C2 (amended): probe write authorization is the first-match decision
tree with the owned-VM rule keyed on the `agent` field: (0) skip-authz,
honored only when requested for the configured admin UUID; (1) `agent` is
an existing physical server — authorized iff operator; (2) else the *agent*
UUID is a VM owned by the actor — authorized; (3) else if the probe type is
`runInVmHost`, the `machine` VM exists and the actor is an operator —
authorized; (4) otherwise the invalid-argument "machine does not exist or
is not owned" error. -/
theorem authorizeWrite_decision_tree (env : AuthzEnv) (p : ProbeAuthz) :
    (authorizeWrite env p = AuthzResult.authorized ↔
      (p.skipauthzEff = true ∨
       (p.skipauthzEff = false ∧ env.serverExists p.agent = true ∧
        env.isOperator p.user = true) ∨
       (p.skipauthzEff = false ∧ env.serverExists p.agent = false ∧
        env.vmOwned p.agent p.user = true) ∨
       (p.skipauthzEff = false ∧ env.serverExists p.agent = false ∧
        env.vmOwned p.agent p.user = false ∧ p.typeRunInVmHost = true ∧
        vmExistsOpt env p.machine = true ∧ env.isOperator p.user = true))) ∧
    (authorizeWrite env p = AuthzResult.notOperatorErr ↔
      (p.skipauthzEff = false ∧ env.serverExists p.agent = true ∧
       env.isOperator p.user = false)) ∧
    (authorizeWrite env p = AuthzResult.noSuchMachineErr ↔
      (p.skipauthzEff = false ∧ env.serverExists p.agent = false ∧
       env.vmOwned p.agent p.user = false ∧
       ¬(p.typeRunInVmHost = true ∧ vmExistsOpt env p.machine = true ∧
         env.isOperator p.user = true))) ∧
    (∀ requested user adminUuid,
      skipauthzEffective requested user adminUuid = true ↔
        (requested = true ∧ user = adminUuid)) := by
  refine ⟨?_, ?_, ?_, ?_⟩
  · cases h0 : p.skipauthzEff <;> cases h1 : env.serverExists p.agent <;>
      cases h2 : env.isOperator p.user <;>
      cases h3 : env.vmOwned p.agent p.user <;>
      cases h4 : p.typeRunInVmHost <;>
      cases h5 : vmExistsOpt env p.machine <;>
      simp [authorizeWrite, h0, h1, h2, h3, h4, h5]
  · cases h0 : p.skipauthzEff <;> cases h1 : env.serverExists p.agent <;>
      cases h2 : env.isOperator p.user <;>
      cases h3 : env.vmOwned p.agent p.user <;>
      cases h4 : p.typeRunInVmHost <;>
      cases h5 : vmExistsOpt env p.machine <;>
      simp [authorizeWrite, h0, h1, h2, h3, h4, h5]
  · cases h0 : p.skipauthzEff <;> cases h1 : env.serverExists p.agent <;>
      cases h2 : env.isOperator p.user <;>
      cases h3 : env.vmOwned p.agent p.user <;>
      cases h4 : p.typeRunInVmHost <;>
      cases h5 : vmExistsOpt env p.machine <;>
      simp [authorizeWrite, h0, h1, h2, h3, h4, h5]
  · intro requested user adminUuid
    cases requested <;> simp [skipauthzEffective]

/-- C4: for a positive-integer maintenance id whose window hash is absent,
the common handler of `GET`/`DELETE` `/pub/:user/maintenances/:id` replies
`410 Gone` iff the id does not exceed the user's `maintenanceIds` counter
(an id previously issued), and `404 ResourceNotFound` otherwise. -/
theorem reqGetMaintenanceWindow_gone_iff (db : MaintDb) (user : String)
    (id : Int) (hpos : 0 < id)
    (habs : db.maintHash user id.toNat = none) :
    (reqGetMaintenanceWindow db user id = MaintGetResponse.gone ↔
      id ≤ (db.maintenanceIds user : Int)) ∧
    (reqGetMaintenanceWindow db user id = MaintGetResponse.notFound ↔
      (db.maintenanceIds user : Int) < id) := by
  unfold reqGetMaintenanceWindow
  rw [habs]
  by_cases hle : id ≤ (db.maintenanceIds user : Int)
  · simp [hpos, hle]
  · simp [hpos, hle]
    omega

/-- Witness for C4: the scenario of the spec — create the `all`-scoped
window (allocating id 1) in an empty store, delete it, and `GET
/pub/:user/maintenances/1` replies `410 Gone`. -/
theorem reqGetMaintenanceWindow_gone_iff_witness :
    (createMaintenance MaintDb.empty cOpts4).1 = CreateResult.created
      { id := 1, user := u4, start := 1000000, end_ := 4600000, notes := none
        all := true, probes := none, probeGroups := none, machines := none } ∧
    (0 : Int) < 1 ∧ db4del.maintHash u4 (1 : Int).toNat = none ∧
    reqGetMaintenanceWindow db4del u4 1 = MaintGetResponse.gone :=
  ⟨by decide, by decide, by decide,
   (reqGetMaintenanceWindow_gone_iff db4del u4 1 (by decide) (by decide)).1.mpr
     (by decide)⟩

/-- `addEvents` replies `202 Accepted` exactly when no error was
collected. -/
theorem addEvents_eq_accepted_iff {α ε : Type} (processEvent : α → Option ε)
    (body : EventsBody α) :
    addEvents processEvent body = AddEventsReply.accepted ↔
      collectedErrs processEvent body = [] := by
  unfold addEvents
  rcases h : collectedErrs processEvent body with _ | ⟨e1, _ | ⟨e2, t⟩⟩ <;> simp

/-- C5: `POST /events` takes a single event or an array; every event is
processed (a failure never aborts its siblings, and every failure is
collected); the reply is `202 Accepted` iff no event failed, the error
itself when exactly one failed, and the `MultiError` wrapper of all
collected errors when more than one failed. -/
theorem addEvents_characterization {α ε : Type} (processEvent : α → Option ε)
    (body : EventsBody α) :
    (addEvents processEvent body = AddEventsReply.accepted ↔
      ∀ e ∈ eventsOf body, processEvent e = none) ∧
    (∀ e ∈ eventsOf body, ∀ err, processEvent e = some err →
      err ∈ collectedErrs processEvent body) ∧
    (∀ err, collectedErrs processEvent body = [err] →
      addEvents processEvent body = AddEventsReply.failed err) ∧
    (∀ err1 err2 rest,
      collectedErrs processEvent body = err1 :: err2 :: rest →
      addEvents processEvent body =
        AddEventsReply.multiFailed (err1 :: err2 :: rest)) := by
  refine ⟨?_, ?_, ?_, ?_⟩
  · rw [addEvents_eq_accepted_iff, collectedErrs, List.filterMap_eq_nil_iff]
  · intro e he err herr
    exact List.mem_filterMap.mpr ⟨e, he, herr⟩
  · intro err herr
    unfold addEvents
    rw [herr]
  · intro err1 err2 rest herr
    unfold addEvents
    rw [herr]

/-- Witness for C5 at a concrete input: three events of which the first and
third fail; both failures are collected and the reply is the `MultiError`
wrapper of exactly those two, in order. -/
theorem addEvents_characterization_witness :
    collectedErrs (fun n => if n % 2 = 1 then some n else none)
        (EventsBody.many [1, 2, 3]) = [1, 3] ∧
    addEvents (fun n => if n % 2 = 1 then some n else none)
        (EventsBody.many [1, 2, 3]) = AddEventsReply.multiFailed [1, 3] :=
  ⟨by decide,
   (addEvents_characterization (fun n => if n % 2 = 1 then some n else none)
       (EventsBody.many [1, 2, 3])).2.2.2 1 3 [] (by decide)⟩

/-- The `Gone` branch of `reqGetMaintenanceWindow` in isolation: a
positive id with no window hash and not above the counter replies Gone. -/
theorem reqGetMaintenanceWindow_gone_of (db : MaintDb) (user : String)
    (id : Int) (hpos : 0 < id) (habs : db.maintHash user id.toNat = none)
    (hle : id ≤ (db.maintenanceIds user : Int)) :
    reqGetMaintenanceWindow db user id = MaintGetResponse.gone := by
  unfold reqGetMaintenanceWindow
  rw [habs]
  simp [hpos, hle]

/-- C9: when `createMaintenance` passes its option checks (so `HINCRBY`
has allocated a fresh id) but the `Maintenance` constructor then rejects
the data, the returned error leaves the per-user `maintenanceIds` counter
incremented and writes no window: the consumed id is skipped, and a later
read of it disambiguates to `410 Gone` ("previously issued"). -/
theorem createMaintenance_keeps_allocated_id (db : MaintDb)
    (o : CreateOptions)
    (h1 : isUuid o.userUuid = true)
    (h2 : timeTruthy o.start = true)
    (h3 : timeTruthy o.end_ = true)
    (h4 : notesTooLong o.notes = false)
    (h5 : o.numScopes = 1)
    (h6 : maintenanceOfData (db.maintenanceIds o.userUuid + 1) o.userUuid
      (o.start.getD 0) (o.end_.getD 0) o.notes o.all o.probes o.probeGroups
      o.machines = none)
    (h7 : db.maintHash o.userUuid (db.maintenanceIds o.userUuid + 1) = none) :
    (createMaintenance db o).1 = CreateResult.typeErr "invalid maintenance data" ∧
    (createMaintenance db o).2.maintenanceIds o.userUuid =
      db.maintenanceIds o.userUuid + 1 ∧
    (createMaintenance db o).2.maintHash = db.maintHash ∧
    reqGetMaintenanceWindow (createMaintenance db o).2 o.userUuid
      ((db.maintenanceIds o.userUuid : Int) + 1) = MaintGetResponse.gone := by
  have hcreate : createMaintenance db o =
      (CreateResult.typeErr "invalid maintenance data",
       { db with maintenanceIds := (bumpAt db.maintenanceIds o.userUuid (db.maintenanceIds o.userUuid + 1)) }) := by
    unfold createMaintenance
    rw [h1, h2, h3, h4]
    simp [h5, h6]
  rw [hcreate]
  refine ⟨rfl, by simp [bumpAt], rfl, ?_⟩
  have hpos : (0 : Int) < (db.maintenanceIds o.userUuid : Int) + 1 := by
    positivity
  apply reqGetMaintenanceWindow_gone_of _ _ _ hpos
  · have htonat : ((db.maintenanceIds o.userUuid : Int) + 1).toNat =
        db.maintenanceIds o.userUuid + 1 := by omega
    rw [htonat]
    exact h7
  · simp [bumpAt]

/-- Witness for C9 at a concrete input: options whose `start` resolved to
the negative timestamp `-5` (truthy, so past the requiredness check, but
rejected by the constructor) against the empty store: the error is
returned, the counter for the user stands at 1, no hash is written, and
reading id 1 yields `410 Gone`. -/
theorem createMaintenance_keeps_allocated_id_witness :
    (createMaintenance MaintDb.empty o9).1 =
      CreateResult.typeErr "invalid maintenance data" ∧
    (createMaintenance MaintDb.empty o9).2.maintenanceIds u4 = 1 ∧
    reqGetMaintenanceWindow (createMaintenance MaintDb.empty o9).2 u4 1 =
      MaintGetResponse.gone := by
  have h := createMaintenance_keeps_allocated_id MaintDb.empty o9
    (by decide) (by decide) (by decide) (by decide) (by decide) (by decide)
    (by decide)
  exact ⟨h.1, h.2.1, h.2.2.2⟩

/-- C10: `createMaintenance` rejects every request whose `notes` exceeds
`MAX_NOTES_LENGTH = 255` characters with a `TypeError` (the create endpoint
maps `TypeError` to an invalid-argument reply) and without touching the
store; a `notes` value of at most 255 characters passes the notes check. -/
theorem createMaintenance_notes_limit :
    (∀ (db : MaintDb) (o : CreateOptions) (s : String),
      o.notes = some s → 255 < s.length →
      ∃ msg, createMaintenance db o = (CreateResult.typeErr msg, db)) ∧
    (∀ s : String, s.length ≤ 255 → notesTooLong (some s) = false) ∧
    notesTooLong none = false := by
  refine ⟨?_, ?_, rfl⟩
  · intro db o s hnotes hlen
    have htoo : notesTooLong o.notes = true := by
      rw [hnotes]
      simpa [notesTooLong] using hlen
    unfold createMaintenance
    by_cases h1 : isUuid o.userUuid
    · by_cases h2 : timeTruthy o.start
      · by_cases h3 : timeTruthy o.end_
        · exact ⟨"\x22options.notes\x22 max length is 255",
            by simp [h1, h2, h3, htoo]⟩
        · exact ⟨"\x22options.end\x22 is required", by simp [h1, h2, h3]⟩
      · exact ⟨"\x22options.start\x22 is required", by simp [h1, h2]⟩
    · exact ⟨"\x22options.userUuid\x22 (UUID) is required", by simp [h1]⟩
  · intro s hlen
    simpa [notesTooLong] using hlen

set_option maxRecDepth 8192 in
/-- Witness for C10 at concrete inputs: a 256-character notes field is
rejected with a `TypeError` and the store is untouched; a 255-character
notes field passes the notes check. -/
theorem createMaintenance_notes_limit_witness :
    (∃ msg, createMaintenance MaintDb.empty
      { userUuid := u4, start := some 1000000, end_ := some 4600000
        notes := some (String.mk (List.replicate 256 'b')), all := true
        probes := none, probeGroups := none, machines := none } =
      (CreateResult.typeErr msg, MaintDb.empty)) ∧
    notesTooLong (some (String.mk (List.replicate 255 'b'))) = false := by
  constructor
  · exact createMaintenance_notes_limit.1 MaintDb.empty _
      (String.mk (List.replicate 256 'b')) rfl (by decide)
  · exact createMaintenance_notes_limit.2.1 _ (by decide)
